import Mathlib

/-!
Shallow embedding of `app/Collector.py` (ActivitiesCollector).

The program is a small HTTP service: `ExerciseFactory.create_exercise`
validates an exercise payload against a per-sport required-key table,
computes a calorie estimate from the static `CALORIE_BURN_RATE` table,
and the `/add` route persists the resulting record, which `/get` lists
back.

Modelling conventions:
- JSON payload values are modelled by `Value`: Python ints become
  `Value.int`, Python floats become `Value.float` (exact rationals),
  strings become `Value.str`.  A payload (Python dict / JSON object) is
  an association list with distinct keys, looked up with `List.lookup`.
- Python `raise ValueError(msg)` is `Except.error (.valueError msg)`;
  any other runtime error escaping the factory (in this program only a
  `TypeError` from `*` on incompatible operands) is
  `Except.error .typeError`.
- Python `*` on payload values is `pyMul`, including the int/float
  distinction (`"a" * 3` is string repetition, `"a" * 0.5` is a
  `TypeError`).
- The database session is a list of `Exercise` rows; `db.session.add` +
  `commit` appends; the storage layer's id assignment is modelled as
  `db.length + 1` and the date default as an explicit `today` argument
  (neither matters for any claim).
-/

/-- A JSON / Python value as it occurs in this program's payloads. -/
inductive Value where
  | int (n : ℤ)
  | float (q : ℚ)
  | str (s : String)
  deriving DecidableEq, Repr

/-- The numeric reading of a value, when it has one.  The int case uses
`mkRat` rather than the cast so that the function evaluates by kernel
reduction; `Rat.mkRat_one` identifies the two. -/
def Value.toRat : Value → Option ℚ
  | .int n => some (mkRat n 1)
  | .float q => some q
  | .str _ => none

/-- A Python dict / JSON object, as an association list. -/
abbrev Payload := List (String × Value)

/-- Python string repetition `s * n` (negative `n` gives the empty string). -/
def strRepeat (s : String) (n : ℤ) : String :=
  String.join (List.replicate n.toNat s)

/-- Python multiplication on the values of this program: numbers multiply,
`str * int` (either order) is string repetition, and every other mix —
`str * float` or `str * str` — raises `TypeError`, modelled as `none`. -/
def pyMul : Value → Value → Option Value
  | .int m, .int n => some (.int (m * n))
  | .int m, .float q => some (.float (mkRat m 1 * q))
  | .float q, .int n => some (.float (q * mkRat n 1))
  | .float p, .float q => some (.float (p * q))
  | .str s, .int n => some (.str (strRepeat s n))
  | .int n, .str s => some (.str (strRepeat s n))
  | .str _, .float _ => none
  | .float _, .str _ => none
  | .str _, .str _ => none

/-- Errors escaping `ExerciseFactory.create_exercise`: the `ValueError`s it
raises itself, and any other runtime error (here only `TypeError` from
`pyMul`), which the `/add` route catches separately. -/
inductive CollectorError where
  | valueError (msg : String)
  | typeError
  deriving DecidableEq, Repr

/-- `ExerciseFactory.CALORIE_BURN_RATE`: calorie burn rate per minute or per
repetition based on sport.  `10`, `12`, `8` are Python ints, `0.5`, `0.5`,
`0.6` are Python floats (as exact rationals `1/2`, `1/2`, `3/5`). -/
def CALORIE_BURN_RATE : List (String × Value) :=
  [("running", .int 10),
   ("swimming", .int 12),
   ("cycling", .int 8),
   ("pullups", .float (mkRat 1 2)),
   ("pushups", .float (mkRat 1 2)),
   ("weights", .float (mkRat 3 5))]

/-- `ExerciseFactory.validate_running`. -/
def validate_running (data : Payload) : Except CollectorError Payload :=
  match data.lookup "time", data.lookup "distance" with
  | some t, some d => .ok [("time", t), ("distance", d)]
  | _, _ => .error (.valueError "Running requires \x27time\x27 and \x27distance\x27")

/-- `ExerciseFactory.validate_swimming`. -/
def validate_swimming (data : Payload) : Except CollectorError Payload :=
  match data.lookup "time", data.lookup "distance" with
  | some t, some d => .ok [("time", t), ("distance", d)]
  | _, _ => .error (.valueError "Swimming requires \x27time\x27 and \x27distance\x27")

/-- `ExerciseFactory.validate_pullups`. -/
def validate_pullups (data : Payload) : Except CollectorError Payload :=
  match data.lookup "sets", data.lookup "reps_per_set" with
  | some s, some r => .ok [("sets", s), ("reps_per_set", r)]
  | _, _ => .error (.valueError "Pull-ups require \x27sets\x27 and \x27reps_per_set\x27")

/-- `ExerciseFactory.validate_cycling`. -/
def validate_cycling (data : Payload) : Except CollectorError Payload :=
  match data.lookup "time", data.lookup "distance" with
  | some t, some d => .ok [("time", t), ("distance", d)]
  | _, _ => .error (.valueError "Cycling requires \x27time\x27 and \x27distance\x27")

/-- `ExerciseFactory.validate_pushups`. -/
def validate_pushups (data : Payload) : Except CollectorError Payload :=
  match data.lookup "sets", data.lookup "reps_per_set" with
  | some s, some r => .ok [("sets", s), ("reps_per_set", r)]
  | _, _ => .error (.valueError "Push-ups require \x27sets\x27 and \x27reps_per_set\x27")

/-- `ExerciseFactory.validate_weights`. -/
def validate_weights (data : Payload) : Except CollectorError Payload :=
  match data.lookup "exercise_type", data.lookup "sets", data.lookup "reps_per_set" with
  | some e, some s, some r => .ok [("exercise_type", e), ("sets", s), ("reps_per_set", r)]
  | _, _, _ =>
    .error (.valueError "Weights require \x27exercise_type\x27, \x27sets\x27, and \x27reps_per_set\x27")

/-- The `validators` dispatch dict inside `create_exercise`. -/
def validators : List (String × (Payload → Except CollectorError Payload)) :=
  [("running", validate_running),
   ("swimming", validate_swimming),
   ("pullups", validate_pullups),
   ("cycling", validate_cycling),
   ("pushups", validate_pushups),
   ("weights", validate_weights)]

/-- `ExerciseFactory.calculate_calories`.  A missing dict key would be a
Python `KeyError` (modelled `none`); from `create_exercise` the sport is
always a rate-table key and the validated data always has the keys read
here. -/
def calculate_calories (sport : String) (data : Payload) : Option Value :=
  match CALORIE_BURN_RATE.lookup sport with
  | none => none
  | some rate =>
    if sport ∈ ["running", "swimming", "cycling"] then
      match data.lookup "time" with
      | some t => pyMul t rate
      | none => none
    else if sport ∈ ["pullups", "pushups", "weights"] then
      match data.lookup "sets", data.lookup "reps_per_set" with
      | some s, some r =>
        match pyMul s r with
        | some total_reps => pyMul total_reps rate
        | none => none
      | _, _ => none
    else
      some (.int 0)

/-- `ExerciseFactory.create_exercise`.  Checks the sport against the rate
table, dispatches to the sport's validator, then appends the computed
`calories_burned` entry to the validated dict (Python dict assignment of a
fresh key appends in insertion order). -/
def create_exercise (sport : String) (data : Payload) : Except CollectorError Payload :=
  if (CALORIE_BURN_RATE.lookup sport).isNone then
    .error (.valueError "Unsupported sport type")
  else
    match validators.lookup sport with
    | none => .error .typeError
    | some validator =>
      match validator data with
      | .error e => .error e
      | .ok validated_data =>
        match calculate_calories sport validated_data with
        | none => .error .typeError
        | some c => .ok (validated_data ++ [("calories_burned", c)])

/-- A row of the `exercises` table (class `Exercise`). -/
structure Exercise where
  id : Nat
  date : String
  sport : String
  details : Payload
  calories_burned : Value
  deriving DecidableEq, Repr

/-- Outcome of the `/add` route: 201 with the stored details and calories,
400 with the `ValueError` message, or 500. -/
inductive AddResult where
  | created (exercise : Payload) (calories_burned : Value)
  | badRequest (error : String)
  | serverError
  deriving DecidableEq, Repr

/-- The `/add` route (`add_exercise`): reads `sport` out of the JSON body,
runs `create_exercise` on the whole body, and on success appends a new
`Exercise` row and returns 201.  A `ValueError` is caught as 400, any other
error as 500 with the session unchanged.  When `data.get("sport")` is `None`
or a non-string value, that value is not a key of `CALORIE_BURN_RATE`, so
`create_exercise` raises the unsupported-sport `ValueError`. -/
def add_exercise (db : List Exercise) (data : Payload) (today : String) :
    List Exercise × AddResult :=
  match data.lookup "sport" with
  | some (.str sport) =>
    match create_exercise sport data with
    | .ok exercise_data =>
      match exercise_data.lookup "calories_burned" with
      | some c =>
        let new_exercise : Exercise :=
          { id := db.length + 1, date := today, sport := sport,
            details := exercise_data, calories_burned := c }
        (db ++ [new_exercise], .created exercise_data c)
      | none => (db, .serverError)
    | .error (.valueError msg) => (db, .badRequest msg)
    | .error .typeError => (db, .serverError)
  | _ => (db, .badRequest "Unsupported sport type")

/-- A row of the JSON array returned by the `/get` route. -/
structure GetRow where
  id : Nat
  date : String
  sport : String
  details : Payload
  calories_burned : Value
  deriving DecidableEq, Repr

/-- The `/get` route (`get_exercises`): lists every stored row back as JSON. -/
def get_exercises (db : List Exercise) : List GetRow :=
  db.map fun e =>
    { id := e.id, date := e.date, sport := e.sport,
      details := e.details, calories_burned := e.calories_burned }

/-! Derived notions used to state the claims. -/

/-- The supported sports: the keys of `CALORIE_BURN_RATE`, in table order. -/
def supportedSports : List String :=
  ["running", "swimming", "cycling", "pullups", "pushups", "weights"]

/-- The per-sport required payload keys (spec §4 table). -/
def requiredKeys : String → List String
  | "running" => ["time", "distance"]
  | "swimming" => ["time", "distance"]
  | "cycling" => ["time", "distance"]
  | "pullups" => ["sets", "reps_per_set"]
  | "pushups" => ["sets", "reps_per_set"]
  | "weights" => ["exercise_type", "sets", "reps_per_set"]
  | _ => []

/-- The `ValueError` message each sport's validator raises. -/
def missingMsg : String → String
  | "running" => "Running requires \x27time\x27 and \x27distance\x27"
  | "swimming" => "Swimming requires \x27time\x27 and \x27distance\x27"
  | "cycling" => "Cycling requires \x27time\x27 and \x27distance\x27"
  | "pullups" => "Pull-ups require \x27sets\x27 and \x27reps_per_set\x27"
  | "pushups" => "Push-ups require \x27sets\x27 and \x27reps_per_set\x27"
  | "weights" => "Weights require \x27exercise_type\x27, \x27sets\x27, and \x27reps_per_set\x27"
  | _ => ""

/-- The rate of a supported sport as a rational. -/
def rateQ (sport : String) : ℚ :=
  ((CALORIE_BURN_RATE.lookup sport).bind Value.toRat).getD 0

/-- Does `pre` start the character list `l`? -/
def charPre : List Char → List Char → Bool
  | [], _ => true
  | _ :: _, [] => false
  | p :: ps, c :: cs => p == c && charPre ps cs

/-- Does `pat` occur inside `l`? -/
def charSub (pat : List Char) : List Char → Bool
  | [] => pat.isEmpty
  | c :: cs => charPre pat (c :: cs) || charSub pat cs

/-- Does string `s` contain `pat` as a substring? -/
def strContains (s pat : String) : Bool :=
  charSub pat.toList s.toList

/-- The key `k` surrounded by single quotes, as it appears in the messages. -/
def squote (k : String) : String :=
  "\x27" ++ k ++ "\x27"

/-- The calories value of a successful `create_exercise` result, read as a
rational. -/
def caloriesOf (r : Except CollectorError Payload) : Option ℚ :=
  match r with
  | .ok rec => (rec.lookup "calories_burned").bind Value.toRat
  | .error _ => none

/-! Theorems for the claims.  `Rat.mul` is `@[irreducible]` in the library;
it is made semireducible locally so that concrete calorie computations
evaluate by `decide`. -/

section ClaimTheorems

attribute [local semireducible] Rat.mul

/-- Numerals as kernel-evaluable rationals. -/
theorem mkRat_numeral (n : ℕ) : mkRat (n : ℤ) 1 = (n : ℚ) := by
  rw [Rat.mkRat_one]; norm_num

/-- C6: the three concrete examples of spec §8.  `record("running",
{time: 30, distance: 5})` gives caloriesBurned 300, `record("pullups",
{sets: 3, reps_per_set: 10})` gives 15, and `record("weights",
{exercise_type: "bench", sets: 4, reps_per_set: 8})` gives 96/5 = 19.2. -/
theorem C6_concrete_examples :
    caloriesOf (create_exercise "running" [("time", .int 30), ("distance", .int 5)])
      = some 300 ∧
    caloriesOf (create_exercise "pullups" [("sets", .int 3), ("reps_per_set", .int 10)])
      = some 15 ∧
    caloriesOf (create_exercise "weights"
      [("exercise_type", .str "bench"), ("sets", .int 4), ("reps_per_set", .int 8)])
      = some (96/5) := by
  have h1 : (300 : ℚ) = mkRat 300 1 := (mkRat_numeral 300).symm
  have h2 : (15 : ℚ) = mkRat 15 1 := (mkRat_numeral 15).symm
  have h3 : (96/5 : ℚ) = mkRat 96 5 := by
    rw [Rat.mkRat_eq_divInt, Rat.divInt_eq_div]; norm_num
  rw [h1, h2, h3]
  refine ⟨by decide, by decide, by decide⟩

/-- A sport outside the six supported ones is not a key of the rate table. -/
theorem rate_lookup_eq_none (sport : String) (h : sport ∉ supportedSports) :
    CALORIE_BURN_RATE.lookup sport = none := by
  simp only [supportedSports, List.mem_cons, List.not_mem_nil, or_false, not_or] at h
  obtain ⟨h1, h2, h3, h4, h5, h6⟩ := h
  have b1 : (sport == "running") = false := beq_eq_false_iff_ne.mpr h1
  have b2 : (sport == "swimming") = false := beq_eq_false_iff_ne.mpr h2
  have b3 : (sport == "cycling") = false := beq_eq_false_iff_ne.mpr h3
  have b4 : (sport == "pullups") = false := beq_eq_false_iff_ne.mpr h4
  have b5 : (sport == "pushups") = false := beq_eq_false_iff_ne.mpr h5
  have b6 : (sport == "weights") = false := beq_eq_false_iff_ne.mpr h6
  simp [CALORIE_BURN_RATE, List.lookup, b1, b2, b3, b4, b5, b6]

/-- C5: for every sport string that is not a key of the calorie-rate table,
`create_exercise` fails with the unsupported-sport `ValueError` on every
payload. -/
theorem C5_unsupported_sport (sport : String) (data : Payload)
    (h : sport ∉ supportedSports) :
    create_exercise sport data = .error (.valueError "Unsupported sport type") := by
  simp [create_exercise, rate_lookup_eq_none sport h]

/-- C5 witness: `record("yoga", {})` yields the unsupported-sport error. -/
theorem C5_witness :
    create_exercise "yoga" [] = .error (.valueError "Unsupported sport type") :=
  C5_unsupported_sport "yoga" [] (by decide)

/-- Unfolding of `create_exercise` at sport `"running"`: the sport check and
validator dispatch reduce away. -/
theorem create_running_eq (d : Payload) :
    create_exercise "running" d =
      match validate_running d with
      | .error e => .error e
      | .ok vd =>
        match calculate_calories "running" vd with
        | none => .error .typeError
        | some c => .ok (vd ++ [("calories_burned", c)]) := rfl

/-- Unfolding of `create_exercise` at sport `"swimming"`. -/
theorem create_swimming_eq (d : Payload) :
    create_exercise "swimming" d =
      match validate_swimming d with
      | .error e => .error e
      | .ok vd =>
        match calculate_calories "swimming" vd with
        | none => .error .typeError
        | some c => .ok (vd ++ [("calories_burned", c)]) := rfl

/-- Unfolding of `create_exercise` at sport `"cycling"`. -/
theorem create_cycling_eq (d : Payload) :
    create_exercise "cycling" d =
      match validate_cycling d with
      | .error e => .error e
      | .ok vd =>
        match calculate_calories "cycling" vd with
        | none => .error .typeError
        | some c => .ok (vd ++ [("calories_burned", c)]) := rfl

/-- Unfolding of `create_exercise` at sport `"pullups"`. -/
theorem create_pullups_eq (d : Payload) :
    create_exercise "pullups" d =
      match validate_pullups d with
      | .error e => .error e
      | .ok vd =>
        match calculate_calories "pullups" vd with
        | none => .error .typeError
        | some c => .ok (vd ++ [("calories_burned", c)]) := rfl

/-- Unfolding of `create_exercise` at sport `"pushups"`. -/
theorem create_pushups_eq (d : Payload) :
    create_exercise "pushups" d =
      match validate_pushups d with
      | .error e => .error e
      | .ok vd =>
        match calculate_calories "pushups" vd with
        | none => .error .typeError
        | some c => .ok (vd ++ [("calories_burned", c)]) := rfl

/-- Unfolding of `create_exercise` at sport `"weights"`. -/
theorem create_weights_eq (d : Payload) :
    create_exercise "weights" d =
      match validate_weights d with
      | .error e => .error e
      | .ok vd =>
        match calculate_calories "weights" vd with
        | none => .error .typeError
        | some c => .ok (vd ++ [("calories_burned", c)]) := rfl

/-- C4: for every supported sport, a payload missing at least one required
key makes `create_exercise` fail with the sport's missing-field `ValueError`
(so no record is returned); the message names every missing key in quotes,
and it identifies the sport (no two supported sports share a message). -/
theorem C4_missing_field (sport : String) (data : Payload)
    (hs : sport ∈ supportedSports)
    (hm : ∃ k, k ∈ requiredKeys sport ∧ data.lookup k = none) :
    create_exercise sport data = .error (.valueError (missingMsg sport)) ∧
    (∀ k, k ∈ requiredKeys sport → data.lookup k = none →
      strContains (missingMsg sport) (squote k) = true) ∧
    (∀ s, s ∈ supportedSports → missingMsg s = missingMsg sport → s = sport) := by
  have hs2 : sport = "running" ∨ sport = "swimming" ∨ sport = "cycling" ∨
      sport = "pullups" ∨ sport = "pushups" ∨ sport = "weights" := by
    simpa [supportedSports] using hs
  obtain ⟨k, hk, hnone⟩ := hm
  rcases hs2 with rfl | rfl | rfl | rfl | rfl | rfl
  · refine ⟨?_, ?_, ?_⟩
    · have hk2 : k = "time" ∨ k = "distance" := by
        simpa [requiredKeys] using hk
      rw [create_running_eq]
      rcases hk2 with rfl | rfl
      · simp only [validate_running, hnone]
        rfl
      · cases ht : data.lookup "time" <;> simp only [validate_running, hnone, ht] <;> rfl
    · intro k2 hk2 _
      have h2 : k2 = "time" ∨ k2 = "distance" := by
        simpa [requiredKeys] using hk2
      rcases h2 with rfl | rfl <;> decide
    · intro s hsm heq
      have h3 : s = "running" ∨ s = "swimming" ∨ s = "cycling" ∨
          s = "pullups" ∨ s = "pushups" ∨ s = "weights" := by
        simpa [supportedSports] using hsm
      rcases h3 with rfl | rfl | rfl | rfl | rfl | rfl
      · rfl
      all_goals exact absurd heq (by decide)
  · refine ⟨?_, ?_, ?_⟩
    · have hk2 : k = "time" ∨ k = "distance" := by
        simpa [requiredKeys] using hk
      rw [create_swimming_eq]
      rcases hk2 with rfl | rfl
      · simp only [validate_swimming, hnone]
        rfl
      · cases ht : data.lookup "time" <;> simp only [validate_swimming, hnone, ht] <;> rfl
    · intro k2 hk2 _
      have h2 : k2 = "time" ∨ k2 = "distance" := by
        simpa [requiredKeys] using hk2
      rcases h2 with rfl | rfl <;> decide
    · intro s hsm heq
      have h3 : s = "running" ∨ s = "swimming" ∨ s = "cycling" ∨
          s = "pullups" ∨ s = "pushups" ∨ s = "weights" := by
        simpa [supportedSports] using hsm
      rcases h3 with rfl | rfl | rfl | rfl | rfl | rfl
      · exact absurd heq (by decide)
      · rfl
      all_goals exact absurd heq (by decide)
  · refine ⟨?_, ?_, ?_⟩
    · have hk2 : k = "time" ∨ k = "distance" := by
        simpa [requiredKeys] using hk
      rw [create_cycling_eq]
      rcases hk2 with rfl | rfl
      · simp only [validate_cycling, hnone]
        rfl
      · cases ht : data.lookup "time" <;> simp only [validate_cycling, hnone, ht] <;> rfl
    · intro k2 hk2 _
      have h2 : k2 = "time" ∨ k2 = "distance" := by
        simpa [requiredKeys] using hk2
      rcases h2 with rfl | rfl <;> decide
    · intro s hsm heq
      have h3 : s = "running" ∨ s = "swimming" ∨ s = "cycling" ∨
          s = "pullups" ∨ s = "pushups" ∨ s = "weights" := by
        simpa [supportedSports] using hsm
      rcases h3 with rfl | rfl | rfl | rfl | rfl | rfl
      · exact absurd heq (by decide)
      · exact absurd heq (by decide)
      · rfl
      all_goals exact absurd heq (by decide)
  · refine ⟨?_, ?_, ?_⟩
    · have hk2 : k = "sets" ∨ k = "reps_per_set" := by
        simpa [requiredKeys] using hk
      rw [create_pullups_eq]
      rcases hk2 with rfl | rfl
      · simp only [validate_pullups, hnone]
        rfl
      · cases ht : data.lookup "sets" <;> simp only [validate_pullups, hnone, ht] <;> rfl
    · intro k2 hk2 _
      have h2 : k2 = "sets" ∨ k2 = "reps_per_set" := by
        simpa [requiredKeys] using hk2
      rcases h2 with rfl | rfl <;> decide
    · intro s hsm heq
      have h3 : s = "running" ∨ s = "swimming" ∨ s = "cycling" ∨
          s = "pullups" ∨ s = "pushups" ∨ s = "weights" := by
        simpa [supportedSports] using hsm
      rcases h3 with rfl | rfl | rfl | rfl | rfl | rfl
      · exact absurd heq (by decide)
      · exact absurd heq (by decide)
      · exact absurd heq (by decide)
      · rfl
      all_goals exact absurd heq (by decide)
  · refine ⟨?_, ?_, ?_⟩
    · have hk2 : k = "sets" ∨ k = "reps_per_set" := by
        simpa [requiredKeys] using hk
      rw [create_pushups_eq]
      rcases hk2 with rfl | rfl
      · simp only [validate_pushups, hnone]
        rfl
      · cases ht : data.lookup "sets" <;> simp only [validate_pushups, hnone, ht] <;> rfl
    · intro k2 hk2 _
      have h2 : k2 = "sets" ∨ k2 = "reps_per_set" := by
        simpa [requiredKeys] using hk2
      rcases h2 with rfl | rfl <;> decide
    · intro s hsm heq
      have h3 : s = "running" ∨ s = "swimming" ∨ s = "cycling" ∨
          s = "pullups" ∨ s = "pushups" ∨ s = "weights" := by
        simpa [supportedSports] using hsm
      rcases h3 with rfl | rfl | rfl | rfl | rfl | rfl
      · exact absurd heq (by decide)
      · exact absurd heq (by decide)
      · exact absurd heq (by decide)
      · exact absurd heq (by decide)
      · rfl
      all_goals exact absurd heq (by decide)
  · refine ⟨?_, ?_, ?_⟩
    · have hk2 : k = "exercise_type" ∨ k = "sets" ∨ k = "reps_per_set" := by
        simpa [requiredKeys] using hk
      rw [create_weights_eq]
      rcases hk2 with rfl | rfl | rfl
      · simp only [validate_weights, hnone]
        rfl
      · cases he : data.lookup "exercise_type" <;>
          simp only [validate_weights, hnone, he] <;> rfl
      · cases he : data.lookup "exercise_type" <;>
          cases hst : data.lookup "sets" <;>
          simp only [validate_weights, hnone, he, hst] <;> rfl
    · intro k2 hk2 _
      have h2 : k2 = "exercise_type" ∨ k2 = "sets" ∨ k2 = "reps_per_set" := by
        simpa [requiredKeys] using hk2
      rcases h2 with rfl | rfl | rfl <;> decide
    · intro s hsm heq
      have h3 : s = "running" ∨ s = "swimming" ∨ s = "cycling" ∨
          s = "pullups" ∨ s = "pushups" ∨ s = "weights" := by
        simpa [supportedSports] using hsm
      rcases h3 with rfl | rfl | rfl | rfl | rfl | rfl
      · exact absurd heq (by decide)
      · exact absurd heq (by decide)
      · exact absurd heq (by decide)
      · exact absurd heq (by decide)
      · exact absurd heq (by decide)
      · rfl

/-- C4 witness: running with `distance` absent fails with the running
missing-field message. -/
theorem C4_witness :
    create_exercise "running" [("time", Value.int 30)]
      = .error (.valueError (missingMsg "running")) :=
  (C4_missing_field "running" [("time", Value.int 30)] (by decide)
    ⟨"distance", by decide, by decide⟩).1

/-- Multiplication of integer-valued rationals. -/
theorem mkRat_one_mul (a b : ℤ) : mkRat a 1 * mkRat b 1 = mkRat (a * b) 1 := by
  rw [Rat.mkRat_one, Rat.mkRat_one, Rat.mkRat_one]
  push_cast
  ring

/-- C1: for every supported sport and payload with the sport's required keys
bound to numeric values, the record's caloriesBurned is `time * rate` for
the time-based sports and `sets * reps_per_set * rate` for the
repetition-based ones, the rate coming from `CALORIE_BURN_RATE`. -/
theorem C1_calorie_formula (sport : String) (data : Payload) :
    (sport ∈ ["running", "swimming", "cycling"] →
      ∀ tv dv t, data.lookup "time" = some tv → data.lookup "distance" = some dv →
        tv.toRat = some t →
        caloriesOf (create_exercise sport data) = some (t * rateQ sport)) ∧
    (sport ∈ ["pullups", "pushups", "weights"] →
      ∀ sv rv s r, data.lookup "sets" = some sv →
        data.lookup "reps_per_set" = some rv →
        sv.toRat = some s → rv.toRat = some r →
        (sport = "weights" → (data.lookup "exercise_type").isSome = true) →
        caloriesOf (create_exercise sport data) = some (s * r * rateQ sport)) ∧
    (rateQ "running" = 10 ∧ rateQ "swimming" = 12 ∧ rateQ "cycling" = 8 ∧
      rateQ "pullups" = 1/2 ∧ rateQ "pushups" = 1/2 ∧ rateQ "weights" = 3/5) := by
  refine ⟨?_, ?_, ?_, ?_, ?_, ?_, ?_, ?_⟩
  case refine_3 =>
    show (mkRat 10 1 : ℚ) = 10
    rw [Rat.mkRat_one]
    norm_num
  case refine_4 =>
    show (mkRat 12 1 : ℚ) = 12
    rw [Rat.mkRat_one]
    norm_num
  case refine_5 =>
    show (mkRat 8 1 : ℚ) = 8
    rw [Rat.mkRat_one]
    norm_num
  case refine_6 =>
    show (mkRat 1 2 : ℚ) = 1/2
    rw [Rat.mkRat_eq_divInt, Rat.divInt_eq_div]
    norm_num
  case refine_7 =>
    show (mkRat 1 2 : ℚ) = 1/2
    rw [Rat.mkRat_eq_divInt, Rat.divInt_eq_div]
    norm_num
  case refine_8 =>
    show (mkRat 3 5 : ℚ) = 3/5
    rw [Rat.mkRat_eq_divInt, Rat.divInt_eq_div]
    norm_num
  · intro hmem tv dv t htv hdv htr
    have hs2 : sport = "running" ∨ sport = "swimming" ∨ sport = "cycling" := by
      simpa using hmem
    rcases hs2 with rfl | rfl | rfl
    · rw [create_running_eq]
      simp only [validate_running, htv, hdv]
      cases tv with
      | str s => simp [Value.toRat] at htr
      | int n =>
        simp only [Value.toRat, Option.some.injEq] at htr
        subst htr
        rw [show rateQ "running" = mkRat 10 1 from rfl, mkRat_one_mul]
        rfl
      | float q =>
        simp only [Value.toRat, Option.some.injEq] at htr
        subst htr
        rw [show rateQ "running" = mkRat 10 1 from rfl]
        rfl
    · rw [create_swimming_eq]
      simp only [validate_swimming, htv, hdv]
      cases tv with
      | str s => simp [Value.toRat] at htr
      | int n =>
        simp only [Value.toRat, Option.some.injEq] at htr
        subst htr
        rw [show rateQ "swimming" = mkRat 12 1 from rfl, mkRat_one_mul]
        rfl
      | float q =>
        simp only [Value.toRat, Option.some.injEq] at htr
        subst htr
        rw [show rateQ "swimming" = mkRat 12 1 from rfl]
        rfl
    · rw [create_cycling_eq]
      simp only [validate_cycling, htv, hdv]
      cases tv with
      | str s => simp [Value.toRat] at htr
      | int n =>
        simp only [Value.toRat, Option.some.injEq] at htr
        subst htr
        rw [show rateQ "cycling" = mkRat 8 1 from rfl, mkRat_one_mul]
        rfl
      | float q =>
        simp only [Value.toRat, Option.some.injEq] at htr
        subst htr
        rw [show rateQ "cycling" = mkRat 8 1 from rfl]
        rfl
  · intro hmem sv rv s r hsv hrv hsr hrr hweights
    have hs2 : sport = "pullups" ∨ sport = "pushups" ∨ sport = "weights" := by
      simpa using hmem
    rcases hs2 with rfl | rfl | rfl
    · rw [create_pullups_eq]
      simp only [validate_pullups, hsv, hrv]
      cases sv with
      | str a => simp [Value.toRat] at hsr
      | int m =>
        simp only [Value.toRat, Option.some.injEq] at hsr
        subst hsr
        cases rv with
        | str a => simp [Value.toRat] at hrr
        | int n =>
          simp only [Value.toRat, Option.some.injEq] at hrr
          subst hrr
          rw [show rateQ "pullups" = mkRat 1 2 from rfl, mkRat_one_mul]
          rfl
        | float q =>
          simp only [Value.toRat, Option.some.injEq] at hrr
          subst hrr
          rw [show rateQ "pullups" = mkRat 1 2 from rfl]
          rfl
      | float p =>
        simp only [Value.toRat, Option.some.injEq] at hsr
        subst hsr
        cases rv with
        | str a => simp [Value.toRat] at hrr
        | int n =>
          simp only [Value.toRat, Option.some.injEq] at hrr
          subst hrr
          rw [show rateQ "pullups" = mkRat 1 2 from rfl]
          rfl
        | float q =>
          simp only [Value.toRat, Option.some.injEq] at hrr
          subst hrr
          rw [show rateQ "pullups" = mkRat 1 2 from rfl]
          rfl
    · rw [create_pushups_eq]
      simp only [validate_pushups, hsv, hrv]
      cases sv with
      | str a => simp [Value.toRat] at hsr
      | int m =>
        simp only [Value.toRat, Option.some.injEq] at hsr
        subst hsr
        cases rv with
        | str a => simp [Value.toRat] at hrr
        | int n =>
          simp only [Value.toRat, Option.some.injEq] at hrr
          subst hrr
          rw [show rateQ "pushups" = mkRat 1 2 from rfl, mkRat_one_mul]
          rfl
        | float q =>
          simp only [Value.toRat, Option.some.injEq] at hrr
          subst hrr
          rw [show rateQ "pushups" = mkRat 1 2 from rfl]
          rfl
      | float p =>
        simp only [Value.toRat, Option.some.injEq] at hsr
        subst hsr
        cases rv with
        | str a => simp [Value.toRat] at hrr
        | int n =>
          simp only [Value.toRat, Option.some.injEq] at hrr
          subst hrr
          rw [show rateQ "pushups" = mkRat 1 2 from rfl]
          rfl
        | float q =>
          simp only [Value.toRat, Option.some.injEq] at hrr
          subst hrr
          rw [show rateQ "pushups" = mkRat 1 2 from rfl]
          rfl
    · obtain ⟨ev, hev⟩ := Option.isSome_iff_exists.mp (hweights rfl)
      rw [create_weights_eq]
      simp only [validate_weights, hev, hsv, hrv]
      cases sv with
      | str a => simp [Value.toRat] at hsr
      | int m =>
        simp only [Value.toRat, Option.some.injEq] at hsr
        subst hsr
        cases rv with
        | str a => simp [Value.toRat] at hrr
        | int n =>
          simp only [Value.toRat, Option.some.injEq] at hrr
          subst hrr
          rw [show rateQ "weights" = mkRat 3 5 from rfl, mkRat_one_mul]
          rfl
        | float q =>
          simp only [Value.toRat, Option.some.injEq] at hrr
          subst hrr
          rw [show rateQ "weights" = mkRat 3 5 from rfl]
          rfl
      | float p =>
        simp only [Value.toRat, Option.some.injEq] at hsr
        subst hsr
        cases rv with
        | str a => simp [Value.toRat] at hrr
        | int n =>
          simp only [Value.toRat, Option.some.injEq] at hrr
          subst hrr
          rw [show rateQ "weights" = mkRat 3 5 from rfl]
          rfl
        | float q =>
          simp only [Value.toRat, Option.some.injEq] at hrr
          subst hrr
          rw [show rateQ "weights" = mkRat 3 5 from rfl]
          rfl

/-- C1 witness: the formula instantiated at a time-based and at a
repetition-based record. -/
theorem C1_witness :
    caloriesOf (create_exercise "running" [("time", Value.int 30), ("distance", Value.int 5)])
      = some (mkRat 30 1 * rateQ "running") ∧
    caloriesOf (create_exercise "weights"
        [("exercise_type", Value.str "bench"), ("sets", Value.int 4), ("reps_per_set", Value.int 8)])
      = some (mkRat 4 1 * mkRat 8 1 * rateQ "weights") :=
  ⟨(C1_calorie_formula "running" [("time", Value.int 30), ("distance", Value.int 5)]).1
      (by decide) (Value.int 30) (Value.int 5) (mkRat 30 1) rfl rfl rfl,
   (C1_calorie_formula "weights"
        [("exercise_type", Value.str "bench"), ("sets", Value.int 4), ("reps_per_set", Value.int 8)]).2.1
      (by decide) (Value.int 4) (Value.int 8) (mkRat 4 1) (mkRat 8 1) rfl rfl rfl rfl
      (fun _ => rfl)⟩

/-- C2 counterexample: with `time = -1` the running record is created
successfully but its caloriesBurned is `-10`, which is negative, so a
payload with exactly the required fields can violate `caloriesBurned >= 0`. -/
theorem C2_counterexample :
    caloriesOf (create_exercise "running" [("time", Value.int (-1)), ("distance", Value.int 5)])
      = some (mkRat (-10) 1) ∧ ¬ (0 ≤ mkRat (-10) 1) := by
  refine ⟨rfl, by decide⟩

/-- C2 (amended): for every supported sport, a payload whose required fields
are present and (apart from `exercise_type`) bound to non-negative numeric
values makes `create_exercise` succeed with a non-negative numeric
caloriesBurned. -/
theorem C2_nonneg_success (sport : String) (data : Payload)
    (hs : sport ∈ supportedSports)
    (hall : ∀ k ∈ requiredKeys sport,
      (data.lookup k).isSome = true ∧
      (k ≠ "exercise_type" →
        ((data.lookup k).bind Value.toRat).isSome = true ∧
        0 ≤ ((data.lookup k).bind Value.toRat).getD 0)) :
    ∃ rec c q, create_exercise sport data = .ok rec ∧
      rec.lookup "calories_burned" = some c ∧ c.toRat = some q ∧ 0 ≤ q := by
  have hs2 : sport = "running" ∨ sport = "swimming" ∨ sport = "cycling" ∨
      sport = "pullups" ∨ sport = "pushups" ∨ sport = "weights" := by
    simpa [supportedSports] using hs
  rcases hs2 with rfl | rfl | rfl | rfl | rfl | rfl
  · obtain ⟨h1, h2⟩ := hall "time" (by decide)
    obtain ⟨tv, htv⟩ := Option.isSome_iff_exists.mp h1
    obtain ⟨hd1, _⟩ := hall "distance" (by decide)
    obtain ⟨dv, hdv⟩ := Option.isSome_iff_exists.mp hd1
    obtain ⟨hnum, hnn⟩ := h2 (by decide)
    rw [htv] at hnum hnn
    rw [create_running_eq]
    simp only [validate_running, htv, hdv]
    cases tv with
    | str a => simp [Value.toRat] at hnum
    | int n =>
      refine ⟨_, _, _, rfl, rfl, rfl, ?_⟩
      rw [← mkRat_one_mul]
      exact mul_nonneg (by simpa [Value.toRat] using hnn) (by decide)
    | float q =>
      refine ⟨_, _, _, rfl, rfl, rfl, ?_⟩
      exact mul_nonneg (by simpa [Value.toRat] using hnn) (by decide)
  · obtain ⟨h1, h2⟩ := hall "time" (by decide)
    obtain ⟨tv, htv⟩ := Option.isSome_iff_exists.mp h1
    obtain ⟨hd1, _⟩ := hall "distance" (by decide)
    obtain ⟨dv, hdv⟩ := Option.isSome_iff_exists.mp hd1
    obtain ⟨hnum, hnn⟩ := h2 (by decide)
    rw [htv] at hnum hnn
    rw [create_swimming_eq]
    simp only [validate_swimming, htv, hdv]
    cases tv with
    | str a => simp [Value.toRat] at hnum
    | int n =>
      refine ⟨_, _, _, rfl, rfl, rfl, ?_⟩
      rw [← mkRat_one_mul]
      exact mul_nonneg (by simpa [Value.toRat] using hnn) (by decide)
    | float q =>
      refine ⟨_, _, _, rfl, rfl, rfl, ?_⟩
      exact mul_nonneg (by simpa [Value.toRat] using hnn) (by decide)
  · obtain ⟨h1, h2⟩ := hall "time" (by decide)
    obtain ⟨tv, htv⟩ := Option.isSome_iff_exists.mp h1
    obtain ⟨hd1, _⟩ := hall "distance" (by decide)
    obtain ⟨dv, hdv⟩ := Option.isSome_iff_exists.mp hd1
    obtain ⟨hnum, hnn⟩ := h2 (by decide)
    rw [htv] at hnum hnn
    rw [create_cycling_eq]
    simp only [validate_cycling, htv, hdv]
    cases tv with
    | str a => simp [Value.toRat] at hnum
    | int n =>
      refine ⟨_, _, _, rfl, rfl, rfl, ?_⟩
      rw [← mkRat_one_mul]
      exact mul_nonneg (by simpa [Value.toRat] using hnn) (by decide)
    | float q =>
      refine ⟨_, _, _, rfl, rfl, rfl, ?_⟩
      exact mul_nonneg (by simpa [Value.toRat] using hnn) (by decide)
  · obtain ⟨h1, h2⟩ := hall "sets" (by decide)
    obtain ⟨sv, hsv⟩ := Option.isSome_iff_exists.mp h1
    obtain ⟨h3, h4⟩ := hall "reps_per_set" (by decide)
    obtain ⟨rv, hrv⟩ := Option.isSome_iff_exists.mp h3
    obtain ⟨hsnum, hsnn⟩ := h2 (by decide)
    obtain ⟨hrnum, hrnn⟩ := h4 (by decide)
    rw [hsv] at hsnum hsnn
    rw [hrv] at hrnum hrnn
    rw [create_pullups_eq]
    simp only [validate_pullups, hsv, hrv]
    cases sv with
    | str a => simp [Value.toRat] at hsnum
    | int m =>
      cases rv with
      | str a => simp [Value.toRat] at hrnum
      | int n =>
        refine ⟨_, _, _, rfl, rfl, rfl, ?_⟩
        refine mul_nonneg ?_ (by decide)
        rw [← mkRat_one_mul]
        exact mul_nonneg (by simpa [Value.toRat] using hsnn)
          (by simpa [Value.toRat] using hrnn)
      | float q =>
        refine ⟨_, _, _, rfl, rfl, rfl, ?_⟩
        refine mul_nonneg ?_ (by decide)
        exact mul_nonneg (by simpa [Value.toRat] using hsnn)
          (by simpa [Value.toRat] using hrnn)
    | float p =>
      cases rv with
      | str a => simp [Value.toRat] at hrnum
      | int n =>
        refine ⟨_, _, _, rfl, rfl, rfl, ?_⟩
        refine mul_nonneg ?_ (by decide)
        exact mul_nonneg (by simpa [Value.toRat] using hsnn)
          (by simpa [Value.toRat] using hrnn)
      | float q =>
        refine ⟨_, _, _, rfl, rfl, rfl, ?_⟩
        refine mul_nonneg ?_ (by decide)
        exact mul_nonneg (by simpa [Value.toRat] using hsnn)
          (by simpa [Value.toRat] using hrnn)
  · obtain ⟨h1, h2⟩ := hall "sets" (by decide)
    obtain ⟨sv, hsv⟩ := Option.isSome_iff_exists.mp h1
    obtain ⟨h3, h4⟩ := hall "reps_per_set" (by decide)
    obtain ⟨rv, hrv⟩ := Option.isSome_iff_exists.mp h3
    obtain ⟨hsnum, hsnn⟩ := h2 (by decide)
    obtain ⟨hrnum, hrnn⟩ := h4 (by decide)
    rw [hsv] at hsnum hsnn
    rw [hrv] at hrnum hrnn
    rw [create_pushups_eq]
    simp only [validate_pushups, hsv, hrv]
    cases sv with
    | str a => simp [Value.toRat] at hsnum
    | int m =>
      cases rv with
      | str a => simp [Value.toRat] at hrnum
      | int n =>
        refine ⟨_, _, _, rfl, rfl, rfl, ?_⟩
        refine mul_nonneg ?_ (by decide)
        rw [← mkRat_one_mul]
        exact mul_nonneg (by simpa [Value.toRat] using hsnn)
          (by simpa [Value.toRat] using hrnn)
      | float q =>
        refine ⟨_, _, _, rfl, rfl, rfl, ?_⟩
        refine mul_nonneg ?_ (by decide)
        exact mul_nonneg (by simpa [Value.toRat] using hsnn)
          (by simpa [Value.toRat] using hrnn)
    | float p =>
      cases rv with
      | str a => simp [Value.toRat] at hrnum
      | int n =>
        refine ⟨_, _, _, rfl, rfl, rfl, ?_⟩
        refine mul_nonneg ?_ (by decide)
        exact mul_nonneg (by simpa [Value.toRat] using hsnn)
          (by simpa [Value.toRat] using hrnn)
      | float q =>
        refine ⟨_, _, _, rfl, rfl, rfl, ?_⟩
        refine mul_nonneg ?_ (by decide)
        exact mul_nonneg (by simpa [Value.toRat] using hsnn)
          (by simpa [Value.toRat] using hrnn)
  · obtain ⟨he1, _⟩ := hall "exercise_type" (by decide)
    obtain ⟨ev, hev⟩ := Option.isSome_iff_exists.mp he1
    obtain ⟨h1, h2⟩ := hall "sets" (by decide)
    obtain ⟨sv, hsv⟩ := Option.isSome_iff_exists.mp h1
    obtain ⟨h3, h4⟩ := hall "reps_per_set" (by decide)
    obtain ⟨rv, hrv⟩ := Option.isSome_iff_exists.mp h3
    obtain ⟨hsnum, hsnn⟩ := h2 (by decide)
    obtain ⟨hrnum, hrnn⟩ := h4 (by decide)
    rw [hsv] at hsnum hsnn
    rw [hrv] at hrnum hrnn
    rw [create_weights_eq]
    simp only [validate_weights, hev, hsv, hrv]
    cases sv with
    | str a => simp [Value.toRat] at hsnum
    | int m =>
      cases rv with
      | str a => simp [Value.toRat] at hrnum
      | int n =>
        refine ⟨_, _, _, rfl, rfl, rfl, ?_⟩
        refine mul_nonneg ?_ (by decide)
        rw [← mkRat_one_mul]
        exact mul_nonneg (by simpa [Value.toRat] using hsnn)
          (by simpa [Value.toRat] using hrnn)
      | float q =>
        refine ⟨_, _, _, rfl, rfl, rfl, ?_⟩
        refine mul_nonneg ?_ (by decide)
        exact mul_nonneg (by simpa [Value.toRat] using hsnn)
          (by simpa [Value.toRat] using hrnn)
    | float p =>
      cases rv with
      | str a => simp [Value.toRat] at hrnum
      | int n =>
        refine ⟨_, _, _, rfl, rfl, rfl, ?_⟩
        refine mul_nonneg ?_ (by decide)
        exact mul_nonneg (by simpa [Value.toRat] using hsnn)
          (by simpa [Value.toRat] using hrnn)
      | float q =>
        refine ⟨_, _, _, rfl, rfl, rfl, ?_⟩
        refine mul_nonneg ?_ (by decide)
        exact mul_nonneg (by simpa [Value.toRat] using hsnn)
          (by simpa [Value.toRat] using hrnn)

/-- C2 witness: pullups with non-negative numeric fields gives a
non-negative caloriesBurned. -/
theorem C2_witness :
    ∃ rec c q, create_exercise "pullups"
        [("sets", Value.int 3), ("reps_per_set", Value.int 10)] = .ok rec ∧
      rec.lookup "calories_burned" = some c ∧ c.toRat = some q ∧ 0 ≤ q :=
  C2_nonneg_success "pullups" [("sets", Value.int 3), ("reps_per_set", Value.int 10)]
    (by decide) (by decide)

/-- C3 counterexample: the attributes mapping persisted for a running record
has keys `time, distance, calories_burned` — the computed `calories_burned`
entry is stored inside `details` as well, so the persisted mapping does not
contain exactly the required keys and no others. -/
theorem C3_counterexample :
    (add_exercise []
        [("sport", Value.str "running"), ("time", Value.int 30), ("distance", Value.int 5)]
        "2026-10-12").1.map (fun e => e.details.map Prod.fst)
      = [["time", "distance", "calories_burned"]] ∧
    "calories_burned" ∉ requiredKeys "running" := by
  refine ⟨rfl, by decide⟩

/-- C3 (amended): a successfully created record's attribute mapping has
exactly the sport's required keys, in validator order, plus the computed
`calories_burned` entry; every other payload key — known or unknown — is
dropped. -/
theorem C3_attributes_keys (sport : String) (data : Payload) (rec : Payload)
    (hs : sport ∈ supportedSports)
    (hok : create_exercise sport data = .ok rec) :
    rec.map Prod.fst = requiredKeys sport ++ ["calories_burned"] ∧
    (∀ k, k ∉ requiredKeys sport → k ≠ "calories_burned" → rec.lookup k = none) := by
  have hs2 : sport = "running" ∨ sport = "swimming" ∨ sport = "cycling" ∨
      sport = "pullups" ∨ sport = "pushups" ∨ sport = "weights" := by
    simpa [supportedSports] using hs
  rcases hs2 with rfl | rfl | rfl | rfl | rfl | rfl
  · rw [create_running_eq] at hok
    simp only [validate_running] at hok
    cases ht : data.lookup "time" <;> simp only [ht] at hok
    · simp at hok
    case some tv =>
      cases hd : data.lookup "distance" <;> simp only [hd] at hok
      · simp at hok
      case some dv =>
        rw [show calculate_calories "running" [("time", tv), ("distance", dv)]
            = pyMul tv (Value.int 10) from rfl] at hok
        cases hp : pyMul tv (Value.int 10) <;> simp only [hp] at hok
        · simp at hok
        case some c =>
          obtain rfl : [("time", tv), ("distance", dv)] ++ [("calories_burned", c)] = rec := by
            simpa using hok
          refine ⟨rfl, ?_⟩
          intro k hk1 hk2
          have hks : ¬(k = "time" ∨ k = "distance") := by simpa [requiredKeys] using hk1
          simp [List.lookup, beq_eq_false_iff_ne.mpr (not_or.mp hks).1,
            beq_eq_false_iff_ne.mpr (not_or.mp hks).2, beq_eq_false_iff_ne.mpr hk2]
  · rw [create_swimming_eq] at hok
    simp only [validate_swimming] at hok
    cases ht : data.lookup "time" <;> simp only [ht] at hok
    · simp at hok
    case some tv =>
      cases hd : data.lookup "distance" <;> simp only [hd] at hok
      · simp at hok
      case some dv =>
        rw [show calculate_calories "swimming" [("time", tv), ("distance", dv)]
            = pyMul tv (Value.int 12) from rfl] at hok
        cases hp : pyMul tv (Value.int 12) <;> simp only [hp] at hok
        · simp at hok
        case some c =>
          obtain rfl : [("time", tv), ("distance", dv)] ++ [("calories_burned", c)] = rec := by
            simpa using hok
          refine ⟨rfl, ?_⟩
          intro k hk1 hk2
          have hks : ¬(k = "time" ∨ k = "distance") := by simpa [requiredKeys] using hk1
          simp [List.lookup, beq_eq_false_iff_ne.mpr (not_or.mp hks).1,
            beq_eq_false_iff_ne.mpr (not_or.mp hks).2, beq_eq_false_iff_ne.mpr hk2]
  · rw [create_cycling_eq] at hok
    simp only [validate_cycling] at hok
    cases ht : data.lookup "time" <;> simp only [ht] at hok
    · simp at hok
    case some tv =>
      cases hd : data.lookup "distance" <;> simp only [hd] at hok
      · simp at hok
      case some dv =>
        rw [show calculate_calories "cycling" [("time", tv), ("distance", dv)]
            = pyMul tv (Value.int 8) from rfl] at hok
        cases hp : pyMul tv (Value.int 8) <;> simp only [hp] at hok
        · simp at hok
        case some c =>
          obtain rfl : [("time", tv), ("distance", dv)] ++ [("calories_burned", c)] = rec := by
            simpa using hok
          refine ⟨rfl, ?_⟩
          intro k hk1 hk2
          have hks : ¬(k = "time" ∨ k = "distance") := by simpa [requiredKeys] using hk1
          simp [List.lookup, beq_eq_false_iff_ne.mpr (not_or.mp hks).1,
            beq_eq_false_iff_ne.mpr (not_or.mp hks).2, beq_eq_false_iff_ne.mpr hk2]
  · rw [create_pullups_eq] at hok
    simp only [validate_pullups] at hok
    cases hst : data.lookup "sets" <;> simp only [hst] at hok
    · simp at hok
    case some sv =>
      cases hr : data.lookup "reps_per_set" <;> simp only [hr] at hok
      · simp at hok
      case some rv =>
        rw [show calculate_calories "pullups" [("sets", sv), ("reps_per_set", rv)]
            = (match pyMul sv rv with
               | some tr => pyMul tr (Value.float (mkRat 1 2))
               | none => none) from rfl] at hok
        cases hp : pyMul sv rv <;> simp only [hp] at hok
        · simp at hok
        case some tr =>
          cases hp2 : pyMul tr (Value.float (mkRat 1 2)) <;> simp only [hp2] at hok
          · simp at hok
          case some c =>
            obtain rfl : [("sets", sv), ("reps_per_set", rv)] ++ [("calories_burned", c)]
                = rec := by simpa using hok
            refine ⟨rfl, ?_⟩
            intro k hk1 hk2
            have hks : ¬(k = "sets" ∨ k = "reps_per_set") := by
              simpa [requiredKeys] using hk1
            simp [List.lookup, beq_eq_false_iff_ne.mpr (not_or.mp hks).1,
              beq_eq_false_iff_ne.mpr (not_or.mp hks).2, beq_eq_false_iff_ne.mpr hk2]
  · rw [create_pushups_eq] at hok
    simp only [validate_pushups] at hok
    cases hst : data.lookup "sets" <;> simp only [hst] at hok
    · simp at hok
    case some sv =>
      cases hr : data.lookup "reps_per_set" <;> simp only [hr] at hok
      · simp at hok
      case some rv =>
        rw [show calculate_calories "pushups" [("sets", sv), ("reps_per_set", rv)]
            = (match pyMul sv rv with
               | some tr => pyMul tr (Value.float (mkRat 1 2))
               | none => none) from rfl] at hok
        cases hp : pyMul sv rv <;> simp only [hp] at hok
        · simp at hok
        case some tr =>
          cases hp2 : pyMul tr (Value.float (mkRat 1 2)) <;> simp only [hp2] at hok
          · simp at hok
          case some c =>
            obtain rfl : [("sets", sv), ("reps_per_set", rv)] ++ [("calories_burned", c)]
                = rec := by simpa using hok
            refine ⟨rfl, ?_⟩
            intro k hk1 hk2
            have hks : ¬(k = "sets" ∨ k = "reps_per_set") := by
              simpa [requiredKeys] using hk1
            simp [List.lookup, beq_eq_false_iff_ne.mpr (not_or.mp hks).1,
              beq_eq_false_iff_ne.mpr (not_or.mp hks).2, beq_eq_false_iff_ne.mpr hk2]
  · rw [create_weights_eq] at hok
    simp only [validate_weights] at hok
    cases he : data.lookup "exercise_type" <;> simp only [he] at hok
    · simp at hok
    case some ev =>
      cases hst : data.lookup "sets" <;> simp only [hst] at hok
      · simp at hok
      case some sv =>
        cases hr : data.lookup "reps_per_set" <;> simp only [hr] at hok
        · simp at hok
        case some rv =>
          rw [show calculate_calories "weights"
              [("exercise_type", ev), ("sets", sv), ("reps_per_set", rv)]
              = (match pyMul sv rv with
                 | some tr => pyMul tr (Value.float (mkRat 3 5))
                 | none => none) from rfl] at hok
          cases hp : pyMul sv rv <;> simp only [hp] at hok
          · simp at hok
          case some tr =>
            cases hp2 : pyMul tr (Value.float (mkRat 3 5)) <;> simp only [hp2] at hok
            · simp at hok
            case some c =>
              obtain rfl : [("exercise_type", ev), ("sets", sv), ("reps_per_set", rv)]
                  ++ [("calories_burned", c)] = rec := by simpa using hok
              refine ⟨rfl, ?_⟩
              intro k hk1 hk2
              have hks : ¬(k = "exercise_type" ∨ k = "sets" ∨ k = "reps_per_set") := by
                simpa [requiredKeys] using hk1
              have n1 : k ≠ "exercise_type" := fun h => hks (Or.inl h)
              have n2 : k ≠ "sets" := fun h => hks (Or.inr (Or.inl h))
              have n3 : k ≠ "reps_per_set" := fun h => hks (Or.inr (Or.inr h))
              simp [List.lookup, beq_eq_false_iff_ne.mpr n1, beq_eq_false_iff_ne.mpr n2,
                beq_eq_false_iff_ne.mpr n3, beq_eq_false_iff_ne.mpr hk2]

/-- C3 witness: the amended key shape at a concrete running record. -/
theorem C3_witness :
    ([("time", Value.int 30), ("distance", Value.int 5),
        ("calories_burned", Value.int 300)] : Payload).map Prod.fst
      = requiredKeys "running" ++ ["calories_burned"] :=
  (C3_attributes_keys "running" [("time", Value.int 30), ("distance", Value.int 5)]
      [("time", Value.int 30), ("distance", Value.int 5), ("calories_burned", Value.int 300)]
      (by decide) rfl).1

/-- C7: caloriesBurned is recomputed from the extracted attributes only —
two payloads for the same supported sport that agree on the required keys
produce identical `create_exercise` results (same record, same
caloriesBurned), whatever other keys (such as a caller-supplied
`calories_burned`) they carry. -/
theorem C7_calories_recomputed (sport : String) (d1 d2 : Payload)
    (hs : sport ∈ supportedSports)
    (hagree : ∀ k ∈ requiredKeys sport, d1.lookup k = d2.lookup k) :
    create_exercise sport d1 = create_exercise sport d2 := by
  have hs2 : sport = "running" ∨ sport = "swimming" ∨ sport = "cycling" ∨
      sport = "pullups" ∨ sport = "pushups" ∨ sport = "weights" := by
    simpa [supportedSports] using hs
  rcases hs2 with rfl | rfl | rfl | rfl | rfl | rfl
  · have e1 := hagree "time" (by decide)
    have e2 := hagree "distance" (by decide)
    rw [create_running_eq, create_running_eq]
    simp only [validate_running, e1, e2]
  · have e1 := hagree "time" (by decide)
    have e2 := hagree "distance" (by decide)
    rw [create_swimming_eq, create_swimming_eq]
    simp only [validate_swimming, e1, e2]
  · have e1 := hagree "time" (by decide)
    have e2 := hagree "distance" (by decide)
    rw [create_cycling_eq, create_cycling_eq]
    simp only [validate_cycling, e1, e2]
  · have e1 := hagree "sets" (by decide)
    have e2 := hagree "reps_per_set" (by decide)
    rw [create_pullups_eq, create_pullups_eq]
    simp only [validate_pullups, e1, e2]
  · have e1 := hagree "sets" (by decide)
    have e2 := hagree "reps_per_set" (by decide)
    rw [create_pushups_eq, create_pushups_eq]
    simp only [validate_pushups, e1, e2]
  · have e1 := hagree "exercise_type" (by decide)
    have e2 := hagree "sets" (by decide)
    have e3 := hagree "reps_per_set" (by decide)
    rw [create_weights_eq, create_weights_eq]
    simp only [validate_weights, e1, e2, e3]

/-- C7 witness: a caller-supplied `calories_burned` (or any junk key) does
not change the result. -/
theorem C7_witness :
    create_exercise "running"
        [("time", Value.int 30), ("distance", Value.int 5),
          ("calories_burned", Value.int 9999)]
      = create_exercise "running"
        [("time", Value.int 30), ("distance", Value.int 5), ("foo", Value.str "bar")] :=
  C7_calories_recomputed "running"
    [("time", Value.int 30), ("distance", Value.int 5), ("calories_burned", Value.int 9999)]
    [("time", Value.int 30), ("distance", Value.int 5), ("foo", Value.str "bar")]
    (by decide) (by decide)

/-- C8: a record successfully written by `/add` is listed back by `/get`
with the identical sport, details and caloriesBurned that were stored. -/
theorem C8_round_trip (db : List Exercise) (data : Payload) (today : String)
    (details : Payload) (c : Value)
    (h : (add_exercise db data today).2 = .created details c) :
    ∃ e, (add_exercise db data today).1 = db ++ [e] ∧
      e.details = details ∧ e.calories_burned = c ∧
      get_exercises (add_exercise db data today).1
        = get_exercises db ++
          [{ id := e.id, date := e.date, sport := e.sport,
             details := details, calories_burned := c }] := by
  unfold add_exercise at h ⊢
  cases hsp : data.lookup "sport" <;> simp only [hsp] at h ⊢
  · simp at h
  case some v =>
    cases v with
    | int n => simp at h
    | float q => simp at h
    | str sport =>
      cases hc : create_exercise sport data <;> simp only [hc] at h ⊢
      case error e => cases e <;> simp at h
      case ok rec =>
        cases hcb : rec.lookup "calories_burned" <;> simp only [hcb] at h ⊢
        · simp at h
        case some c2 =>
          obtain ⟨rfl, rfl⟩ : rec = details ∧ c2 = c := by simpa using h
          refine ⟨_, rfl, rfl, rfl, ?_⟩
          simp [get_exercises]

/-- C8 witness: a concrete running record written to an empty store and
listed back. -/
theorem C8_witness :
    ∃ e, (add_exercise []
        [("sport", Value.str "running"), ("time", Value.int 30), ("distance", Value.int 5)]
        "2026-10-12").1 = [] ++ [e] ∧
      e.details = [("time", Value.int 30), ("distance", Value.int 5),
        ("calories_burned", Value.int 300)] ∧
      e.calories_burned = Value.int 300 ∧
      get_exercises (add_exercise []
        [("sport", Value.str "running"), ("time", Value.int 30), ("distance", Value.int 5)]
        "2026-10-12").1
        = get_exercises [] ++
          [{ id := e.id, date := e.date, sport := e.sport,
             details := [("time", Value.int 30), ("distance", Value.int 5),
               ("calories_burned", Value.int 300)],
             calories_burned := Value.int 300 }] :=
  C8_round_trip []
    [("sport", Value.str "running"), ("time", Value.int 30), ("distance", Value.int 5)]
    "2026-10-12"
    [("time", Value.int 30), ("distance", Value.int 5), ("calories_burned", Value.int 300)]
    (Value.int 300) rfl

/-- C9: a `/add` request that fails validation (400) leaves the stored rows
unchanged — validation happens before any write. -/
theorem C9_validation_atomic (db : List Exercise) (data : Payload) (today : String)
    (msg : String) (h : (add_exercise db data today).2 = .badRequest msg) :
    (add_exercise db data today).1 = db := by
  unfold add_exercise at h ⊢
  cases hsp : data.lookup "sport"
  case none => simp [hsp]
  case some v =>
    cases v with
    | int n => simp [hsp]
    | float q => simp [hsp]
    | str sport =>
      simp only [hsp] at h ⊢
      cases hc : create_exercise sport data
      case error e => cases e <;> simp [hc]
      case ok rec =>
        simp only [hc] at h ⊢
        cases hcb : rec.lookup "calories_burned"
        case none => simp [hcb]
        case some c2 =>
          simp only [hcb] at h
          simp at h

/-- C9 witness: a rejected unsupported-sport request leaves an empty store
empty. -/
theorem C9_witness :
    (add_exercise [] [("sport", Value.str "yoga")] "2026-10-12").1 = [] :=
  C9_validation_atomic [] [("sport", Value.str "yoga")] "2026-10-12"
    "Unsupported sport type" rfl

/-- C10: validation checks key presence only — when every required key is
present, `create_exercise` raises no `ValueError` whatever the values; it
either succeeds or fails later, inside the calorie computation, with a
(non-validation) `TypeError`. -/
theorem C10_presence_only (sport : String) (data : Payload)
    (hs : sport ∈ supportedSports)
    (hall : ∀ k ∈ requiredKeys sport, (data.lookup k).isSome = true) :
    ((∃ rec, create_exercise sport data = .ok rec) ∨
      create_exercise sport data = .error .typeError) ∧
    ∀ msg, create_exercise sport data ≠ .error (.valueError msg) := by
  have hs2 : sport = "running" ∨ sport = "swimming" ∨ sport = "cycling" ∨
      sport = "pullups" ∨ sport = "pushups" ∨ sport = "weights" := by
    simpa [supportedSports] using hs
  have main : (∃ rec, create_exercise sport data = .ok rec) ∨
      create_exercise sport data = .error .typeError := by
    rcases hs2 with rfl | rfl | rfl | rfl | rfl | rfl
    · obtain ⟨tv, htv⟩ := Option.isSome_iff_exists.mp (hall "time" (by decide))
      obtain ⟨dv, hdv⟩ := Option.isSome_iff_exists.mp (hall "distance" (by decide))
      rw [create_running_eq]
      simp only [validate_running, htv, hdv]
      cases tv <;> exact Or.inl ⟨_, rfl⟩
    · obtain ⟨tv, htv⟩ := Option.isSome_iff_exists.mp (hall "time" (by decide))
      obtain ⟨dv, hdv⟩ := Option.isSome_iff_exists.mp (hall "distance" (by decide))
      rw [create_swimming_eq]
      simp only [validate_swimming, htv, hdv]
      cases tv <;> exact Or.inl ⟨_, rfl⟩
    · obtain ⟨tv, htv⟩ := Option.isSome_iff_exists.mp (hall "time" (by decide))
      obtain ⟨dv, hdv⟩ := Option.isSome_iff_exists.mp (hall "distance" (by decide))
      rw [create_cycling_eq]
      simp only [validate_cycling, htv, hdv]
      cases tv <;> exact Or.inl ⟨_, rfl⟩
    · obtain ⟨sv, hsv⟩ := Option.isSome_iff_exists.mp (hall "sets" (by decide))
      obtain ⟨rv, hrv⟩ := Option.isSome_iff_exists.mp (hall "reps_per_set" (by decide))
      rw [create_pullups_eq]
      simp only [validate_pullups, hsv, hrv]
      cases sv <;> cases rv <;> first | exact Or.inl ⟨_, rfl⟩ | exact Or.inr rfl
    · obtain ⟨sv, hsv⟩ := Option.isSome_iff_exists.mp (hall "sets" (by decide))
      obtain ⟨rv, hrv⟩ := Option.isSome_iff_exists.mp (hall "reps_per_set" (by decide))
      rw [create_pushups_eq]
      simp only [validate_pushups, hsv, hrv]
      cases sv <;> cases rv <;> first | exact Or.inl ⟨_, rfl⟩ | exact Or.inr rfl
    · obtain ⟨ev, hev⟩ :=
        Option.isSome_iff_exists.mp (hall "exercise_type" (by decide))
      obtain ⟨sv, hsv⟩ := Option.isSome_iff_exists.mp (hall "sets" (by decide))
      obtain ⟨rv, hrv⟩ := Option.isSome_iff_exists.mp (hall "reps_per_set" (by decide))
      rw [create_weights_eq]
      simp only [validate_weights, hev, hsv, hrv]
      cases sv <;> cases rv <;> first | exact Or.inl ⟨_, rfl⟩ | exact Or.inr rfl
  refine ⟨main, ?_⟩
  rcases main with ⟨rec, hr⟩ | hr <;> intro msg <;> simp [hr]

/-- C10 witness: pullups with string-valued fields passes validation (no
`ValueError`) and only the multiplication fails, as a `TypeError`. -/
theorem C10_witness :
    ((∃ rec, create_exercise "pullups"
        [("sets", Value.str "a"), ("reps_per_set", Value.str "b")] = .ok rec) ∨
      create_exercise "pullups"
        [("sets", Value.str "a"), ("reps_per_set", Value.str "b")]
        = .error .typeError) ∧
    ∀ msg, create_exercise "pullups"
        [("sets", Value.str "a"), ("reps_per_set", Value.str "b")]
      ≠ .error (.valueError msg) :=
  C10_presence_only "pullups" [("sets", Value.str "a"), ("reps_per_set", Value.str "b")]
    (by decide) (by decide)

end ClaimTheorems
